import Mathlib

/-!
Verification of the task-progress observation engine of the Account_Research_Agent
client (`account-research-ui`).  The definitions below are a shallow embedding of
`src/pages/ProgressPage.tsx` (both versions present in the repository) and
`src/api/client.ts`.  JavaScript numbers are modelled as rationals; the relevant
arithmetic (division by the duration constant, multiplication by 100, `Math.min`)
is exact on the inputs considered.
-/

namespace AccountResearch

/-- The `status` field of the `Task` interface in `api/client.ts`:
`'pending' | 'running' | 'completed' | 'failed'`. -/
inductive TaskStatus
  | pending
  | running
  | completed
  | failed
deriving DecidableEq, Repr

/-- The fields of the `Task` record from `api/client.ts` that the embedded code
consults (`task_id`, `status`, `progress`, `created_at`, `error`).  The remaining
timestamps and the opaque `request`/`result` metadata are never read by the
progress logic and are omitted. -/
structure Task where
  task_id : String
  status : TaskStatus
  progress : ℚ
  created_at : String
  error : Option String := none
deriving DecidableEq, Repr

/-- One entry of the `STEPS_CONFIG` array in `ProgressPage.tsx` (first version). -/
structure StepDef where
  id : String
  label : String
  progressThreshold : ℚ
deriving DecidableEq, Repr

/-- The `STEPS_CONFIG` constant of `ProgressPage.tsx` (first version). -/
def STEPS_CONFIG : List StepDef :=
  [⟨"init", "Initializing Task", 0⟩,
   ⟨"disambiguation", "Confirming Target Company", 5⟩,
   ⟨"fetch_data", "Gathering Source Information", 15⟩,
   ⟨"analyze_data", "Analyzing & Generating Sections", 75⟩,
   ⟨"compile_report", "Compiling Report", 90⟩,
   ⟨"generate_pdf", "Generating Final PDF", 95⟩]

/-- The `MIMIC_DURATION_MS` constant: `2 * 60 * 1000` milliseconds. -/
def MIMIC_DURATION_MS : ℚ := 2 * 60 * 1000

/-- The mimicry-related component state of the first `ProgressPage` version:
`mimickedProgress`, `currentMimickedStepIndex` and `isMimicking`. -/
structure MimicState where
  isMimicking : Bool
  mimickedProgress : ℚ
  currentMimickedStepIndex : Int
deriving DecidableEq, Repr

/-- The state installed by the mimicry effect when it starts mimicking
(`setIsMimicking(true); setMimickedProgress(0); setCurrentMimickedStepIndex(-1)`). -/
def mimicStart : MimicState :=
  { isMimicking := true, mimickedProgress := 0, currentMimickedStepIndex := -1 }

/-- `Math.min(100, (elapsedTime / MIMIC_DURATION_MS) * 100)` from the interval
callback of the mimicry effect. -/
def computeMimickedProgress (elapsedTime : ℚ) : ℚ :=
  min 100 (elapsedTime / MIMIC_DURATION_MS * 100)

/-- The downward scan of the interval callback: `for (let i = STEPS_CONFIG.length - 1;
i >= 0; i--) if (currentProgress >= STEPS_CONFIG[i].progressThreshold) ...`, applied
to the index/step pairs in descending index order. -/
def findStepIndexGo (currentProgress : ℚ) : List (ℕ × StepDef) → Int
  | [] => -1
  | (i, step) :: rest =>
    if step.progressThreshold ≤ currentProgress then (i : Int)
    else findStepIndexGo currentProgress rest

/-- The `stepIndex` computed by the interval callback of the mimicry effect. -/
def findMimickedStepIndex (currentProgress : ℚ) : Int :=
  findStepIndexGo currentProgress STEPS_CONFIG.enum.reverse

/-- One run of the interval callback of the mimicry effect with the given
`elapsedTime = Date.now() - startTime`: it stores the freshly computed progress and
step index, and clears `isMimicking` when `elapsedTime >= MIMIC_DURATION_MS`. -/
def mimicTick (elapsedTime : ℚ) (s : MimicState) : MimicState :=
  let currentProgress := computeMimickedProgress elapsedTime
  let stepIndex := findMimickedStepIndex currentProgress
  { isMimicking := if MIMIC_DURATION_MS ≤ elapsedTime then false else s.isMimicking,
    mimickedProgress := currentProgress,
    currentMimickedStepIndex := stepIndex }

/-- The body of the mimicry `useEffect` of the first `ProgressPage` version, as a
function of the fetched task and the current mimicry state: start mimicking on a
non-terminal task when not mimicking; on a terminal task while mimicking, stop, and
on `completed` force `mimickedProgress` to 100 and the step index past the last step. -/
def mimicEffect (task? : Option Task) (s : MimicState) : MimicState :=
  match task? with
  | some t =>
    if (t.status = TaskStatus.running ∨ t.status = TaskStatus.pending) ∧ s.isMimicking = false then
      mimicStart
    else if (t.status = TaskStatus.completed ∨ t.status = TaskStatus.failed) ∧ s.isMimicking = true then
      if t.status = TaskStatus.completed then
        { isMimicking := false, mimickedProgress := 100,
          currentMimickedStepIndex := (STEPS_CONFIG.length : Int) }
      else { s with isMimicking := false }
    else s
  | none => s

/-- `const displayProgress = isMimicking ? mimickedProgress : task?.progress ?? 0;`
(line 276 of the first version). -/
def displayProgress (task? : Option Task) (s : MimicState) : ℚ :=
  if s.isMimicking then s.mimickedProgress else (task?.map Task.progress).getD 0

/-- Rendered status of a single step in the derived step list. -/
inductive StepStatus
  | completed
  | failed
  | pending
  | processing
deriving DecidableEq, Repr

/-- The per-step branch of the `displayedTaskSteps` `useMemo`: terminal statuses
first, then the mimicry mapping (`index <= stepIndex` completed, `index ==
stepIndex + 1` processing, otherwise pending), then the fallback, and finally the
first-step override for a pending/running task that is not being mimicked. -/
def stepStatusFor (status? : Option TaskStatus) (isMimicking : Bool) (stepIndex : Int)
    (progress : ℚ) (index : ℕ) : StepStatus :=
  let fromBranches :=
    if status? = some TaskStatus.completed then StepStatus.completed
    else if status? = some TaskStatus.failed then
      (if index = 0 then StepStatus.completed else StepStatus.failed)
    else if isMimicking = true then
      (let byIndex := if (index : Int) ≤ stepIndex then StepStatus.completed else StepStatus.pending
       if (index : Int) = stepIndex + 1 then StepStatus.processing else byIndex)
    else StepStatus.pending
  let firstStepOverride :=
    ((STEPS_CONFIG.get? 1).map (fun nextStep => decide (progress < nextStep.progressThreshold))).getD false
  if index = 0 ∧ (status? = some TaskStatus.pending ∨ status? = some TaskStatus.running)
      ∧ isMimicking = false ∧ firstStepOverride = true then
    StepStatus.processing
  else fromBranches

/-- The `displayedTaskSteps` `useMemo` of the first `ProgressPage` version, pairing
each configured step with its rendered status. -/
def displayedTaskSteps (task? : Option Task) (s : MimicState) : List (StepDef × StepStatus) :=
  let progress := if s.isMimicking then s.mimickedProgress else (task?.map Task.progress).getD 0
  let status? := task?.map Task.status
  let stepIndex := if s.isMimicking then s.currentMimickedStepIndex else -1
  STEPS_CONFIG.enum.map (fun p => (p.2, stepStatusFor status? s.isMimicking stepIndex progress p.1))

example : computeMimickedProgress 60000 = 50 := by norm_num [computeMimickedProgress, MIMIC_DURATION_MS]

example : findMimickedStepIndex 50 = 2 := by decide

/-- The static `baseLogs` list of `getTaskLogs` in the second `ProgressPage`
version, as `(id, label)` pairs. -/
def baseLogs : List (String × String) :=
  [("init", "Initializing Task"),
   ("disambiguation", "Confirming Target Company"),
   ("fetch_data", "Gathering Source Information"),
   ("analyze_data", "Analyzing Data & Generating Sections"),
   ("compile_report", "Compiling Report Sections"),
   ("generate_pdf", "Generating Final PDF")]

/-- The `thresholds` array of `getTaskLogs` in the second version. -/
def v2Thresholds : List ℚ := [0, 5, 15, 75, 90, 95, 100]

/-- The ascending scan of `getTaskLogs`: `for (i = 0; i < thresholds.length - 1; i++)
if (currentProgress >= thresholds[i]) currentStepIndex = i; else break;`. -/
def v2StepIndexGo (currentProgress : ℚ) : ℕ → List ℚ → Int → Int
  | _, [], acc => acc
  | i, th :: rest, acc =>
    if th ≤ currentProgress then v2StepIndexGo currentProgress (i + 1) rest (i : Int)
    else acc

/-- The `currentStepIndex` computed by `getTaskLogs` of the second version. -/
def v2CurrentStepIndex (currentProgress : ℚ) : Int :=
  v2StepIndexGo currentProgress 0 (v2Thresholds.take (v2Thresholds.length - 1)) (-1)

/-- The `getTaskLogs` helper of the second `ProgressPage` version: derives the
log list as `(id, label, status)` triples from the authoritative task status and
its server-reported progress. -/
def getTaskLogs (taskStatus : Option TaskStatus) (progress : Option ℚ) :
    List (String × String × StepStatus) :=
  match taskStatus with
  | none => baseLogs.map (fun l => (l.1, l.2, StepStatus.pending))
  | some st =>
    let currentProgress := progress.getD 0
    if st = TaskStatus.failed then
      baseLogs.map (fun l =>
        (l.1, l.2, if l.1 = "init" then StepStatus.completed else StepStatus.failed))
    else
      let currentStepIndex := v2CurrentStepIndex currentProgress
      baseLogs.enum.map (fun p =>
        let byIndex :=
          if (p.1 : Int) < currentStepIndex then StepStatus.completed
          else if (p.1 : Int) = currentStepIndex then
            (if st = TaskStatus.completed then StepStatus.completed else StepStatus.processing)
          else StepStatus.pending
        (p.2.1, p.2.2,
          if st = TaskStatus.completed then StepStatus.completed else byIndex))

/-- The `refetchInterval` callback of the `taskStatus` query (identical in both
versions of `ProgressPage`): `false` — i.e. no next interval — once the fetched
task is `completed` or `failed`, and 5000 ms otherwise (also while no data has
been fetched yet). -/
def refetchIntervalV1 (data : Option Task) : Option ℕ :=
  match data with
  | some t =>
    if t.status = TaskStatus.completed ∨ t.status = TaskStatus.failed then none
    else some 5000
  | none => some 5000

/-- The `retry` callback of the first version's `taskStatus` query: never retry a
404, otherwise retry while `failureCount < 2`.  The error is abstracted to its
HTTP response status, the only field the callback reads. -/
def retryV1 (failureCount : ℕ) (errorHttpStatus : Option ℕ) : Bool :=
  if errorHttpStatus = some 404 then false else decide (failureCount < 2)

/-- Modelled from the spec: the second version passes the numeric option
`retry: 2`, whose scheduler (in @tanstack/react-query, outside this repository)
retries while the failure count is below the given bound — matching the spec's
"retried a bounded number of times (reference: 2)". -/
def retryV2 (failureCount : ℕ) : Bool :=
  decide (failureCount < 2)

/-- The options of the `taskStatus` query that govern when another fetch may be
issued, as configured by the first `ProgressPage` version. -/
structure QueryOptions where
  refetchInterval : Option Task → Option ℕ
  refetchOnWindowFocus : Bool
  retry : ℕ → Option ℕ → Bool

/-- The `useQuery` configuration of the first `ProgressPage` version:
`refetchInterval` as above, `refetchOnWindowFocus: true`, and the 404-aware retry
callback. -/
def progressQueryOptions : QueryOptions :=
  { refetchInterval := refetchIntervalV1,
    refetchOnWindowFocus := true,
    retry := retryV1 }

/-- Events that can cause the query scheduler to issue a status fetch. -/
inductive FetchTrigger
  | intervalElapsed
  | windowFocus
deriving DecidableEq, Repr

/-- Modelled from the spec: the @tanstack/react-query refetch scheduler is an
external collaborator absent from the repository sources.  It is modelled
minimally and faithfully to the component's own configuration and comments: a
fetch fires for an enabled query when the configured refetch interval elapses
(which requires `refetchInterval` to have returned a next delay), and on a
window-focus event when `refetchOnWindowFocus` is set (the component's comment:
"polling will continue in the background (if window is focused)"). -/
def refetchFires (opts : QueryOptions) (data : Option Task) : FetchTrigger → Bool
  | FetchTrigger.intervalElapsed => (opts.refetchInterval data).isSome
  | FetchTrigger.windowFocus => opts.refetchOnWindowFocus

/-- The delay of the navigation transition scheduled by the first version's
completion effect (`setTimeout(..., 1500)`). -/
def NAV_DELAY_MS : ℕ := 1500

/-- State of the completion-navigation effect of `ProgressPage`: the dependency
value (`task?.status`) the effect last ran with, whether a scheduled transition
timer is pending, and how many times a transition was scheduled and fired. -/
structure NavState where
  lastDep : Option (Option TaskStatus)
  timerPending : Bool
  scheduledCount : ℕ
  firedCount : ℕ
deriving DecidableEq, Repr

/-- Navigation-effect state on mount: the effect has not run yet. -/
def navInit : NavState :=
  { lastDep := none, timerPending := false, scheduledCount := 0, firedCount := 0 }

/-- Run the completion effect body for dependency value `dep`: React first runs
the previous cleanup (`clearTimeout`), then the body, which schedules the delayed
navigation exactly when `task?.status === 'completed'`. -/
def runNavEffect (s : NavState) (dep : Option TaskStatus) : NavState :=
  let s1 := { s with timerPending := false }
  if dep = some TaskStatus.completed then
    { s1 with lastDep := some dep, timerPending := true, scheduledCount := s1.scheduledCount + 1 }
  else { s1 with lastDep := some dep }

/-- One render with dependency value `dep`: per React's `useEffect` semantics the
effect re-runs only when the dependency value differs from the one it last ran
with (it always runs on the first render, when no previous value exists). -/
def navRender (s : NavState) (dep : Option TaskStatus) : NavState :=
  if s.lastDep = some dep then s else runNavEffect s dep

/-- The scheduled `setTimeout` fires: navigation happens if the timer is still
pending. -/
def navTimerFire (s : NavState) : NavState :=
  if s.timerPending then { s with timerPending := false, firedCount := s.firedCount + 1 }
  else s

/-- Component teardown: React runs the effect cleanup, which clears any pending
transition timer. -/
def navUnmount (s : NavState) : NavState :=
  { s with timerPending := false }

/-- Process a sequence of observed dependency values (one per render) from the
mounted state. -/
def navRun (deps : List (Option TaskStatus)) : NavState :=
  deps.foldl navRender navInit

/-- The `ReadinessRecord` of the spec: the `UserInfo` type inferred from
`userInfoSchema` in `ProgressPage.tsx`. -/
structure UserInfo where
  name : String
  email : String
  designation : String
deriving DecidableEq, Repr

/-- The result of `JSON.parse` on a stored `userInfo` blob: a flat object whose
three expected fields may each be missing. -/
structure StoredJson where
  name : Option String
  email : Option String
  designation : Option String
deriving DecidableEq, Repr

/-- A stored `localStorage` value: either a parseable JSON object or a malformed
string on which `JSON.parse` throws. -/
inductive Blob
  | json (j : StoredJson)
  | malformed
deriving DecidableEq, Repr

/-- Split a character list at every occurrence of `c` (used to model the shape
checks of zod's email validator). -/
def splitOnChar (c : Char) : List Char → List (List Char)
  | [] => [[]]
  | x :: xs =>
    let rest := splitOnChar c xs
    if x = c then [] :: rest
    else
      match rest with
      | [] => [[x]]
      | r :: rs => (x :: r) :: rs

/-- Modelled from the spec: `z.string().email()` is zod library code outside the
repository; it is modelled as the basic well-formedness it enforces — exactly one
at-sign, a nonempty local part, and a dot-separated domain of at least two
nonempty labels. -/
def emailValid (s : String) : Bool :=
  match splitOnChar (Char.ofNat 64) s.toList with
  | [localPart, domain] =>
    (!localPart.isEmpty) &&
      (let labels := splitOnChar (Char.ofNat 46) domain
       decide (2 ≤ labels.length) && labels.all (fun l => !l.isEmpty))
  | _ => false

/-- The constraints of `userInfoSchema`: `name` at least 2 characters, `email` a
valid email address, `designation` at least 2 characters. -/
def userInfoSchemaCheck (r : UserInfo) : Bool :=
  decide (2 ≤ r.name.length) && emailValid r.email && decide (2 ≤ r.designation.length)

/-- `userInfoSchema.parse(parsedInfo)`: succeeds exactly when all three fields are
present and the schema constraints hold, returning the record. -/
def userInfoSchemaParse (j : StoredJson) : Option UserInfo :=
  match j.name, j.email, j.designation with
  | some n, some e, some d =>
    if userInfoSchemaCheck ⟨n, e, d⟩ then some ⟨n, e, d⟩ else none
  | _, _, _ => none

/-- `JSON.parse(JSON.stringify(data))` on a flat record of strings round-trips
exactly; storing a `UserInfo` yields the JSON object with all three fields set. -/
def toStoredJson (r : UserInfo) : StoredJson :=
  ⟨some r.name, some r.email, some r.designation⟩

/-- Parse a stored blob into a validated record: `JSON.parse` followed by
`userInfoSchema.parse`, with a thrown parse error yielding no record. -/
def parseBlob : Blob → Option UserInfo
  | Blob.json j => userInfoSchemaParse j
  | Blob.malformed => none

/-- The gate-relevant component state after the storage-check effect:
`hasUserInfo`, `userInfoDialogOpen`, and the (possibly cleared) stored blob. -/
structure GateState where
  hasUserInfo : Bool
  userInfoDialogOpen : Bool
  storage : Option Blob
deriving DecidableEq, Repr

/-- The mount effect of the first `ProgressPage` version (lines 85-107): read the
stored `userInfo` blob, `JSON.parse` it and validate it against `userInfoSchema`;
on any failure remove the blob and treat the record as absent; open the dialog
exactly when no valid record was found. -/
def checkStorageEffect (storage : Option Blob) : GateState :=
  match storage with
  | some (Blob.json j) =>
    match userInfoSchemaParse j with
    | some _ =>
      { hasUserInfo := true, userInfoDialogOpen := false, storage := some (Blob.json j) }
    | none => { hasUserInfo := false, userInfoDialogOpen := true, storage := none }
  | some Blob.malformed => { hasUserInfo := false, userInfoDialogOpen := true, storage := none }
  | none => { hasUserInfo := false, userInfoDialogOpen := true, storage := none }

/-- The `onUserInfoSubmit` handler: store the submitted record as JSON, mark the
gate valid and close the dialog. -/
def onUserInfoSubmit (r : UserInfo) : GateState :=
  { hasUserInfo := true, userInfoDialogOpen := false, storage := some (Blob.json (toStoredJson r)) }

/-- The comparator of `listTasks` in `api/client.ts`,
`(a, b) => new Date(b.created_at).getTime() - new Date(a.created_at).getTime()`,
rendered as the "may precede" relation used by a comparison sort (`a` may precede
`b` exactly when the comparator is nonpositive).  `Date` parsing is a JavaScript
builtin and is abstracted as the timestamp function `getTime`. -/
def listTasksComparatorLe (getTime : String → ℤ) (a b : Task) : Bool :=
  decide (getTime b.created_at - getTime a.created_at ≤ 0)

/-- The `listTasks` sort step in `api/client.ts`: sort the fetched task array by
`created_at`, newest first.  `Array.prototype.sort` is modelled as a stable merge
sort over the comparator's "may precede" relation. -/
def listTasks (getTime : String → ℤ) (tasks : List Task) : List Task :=
  tasks.mergeSort (listTasksComparatorLe getTime)

/-- A concrete non-terminal task whose server-reported progress is 10. -/
def runningTaskLow : Task :=
  ⟨"job-1", TaskStatus.running, 10, "2025-01-01T00:00:00Z", none⟩

/-- A concrete task that the server reports as completed with progress 40. -/
def completedTask40 : Task :=
  ⟨"job-2", TaskStatus.completed, 40, "2025-01-02T00:00:00Z", none⟩

lemma mimicTick_isMimicking (e : ℚ) (s : MimicState) :
    (mimicTick e s).isMimicking = if MIMIC_DURATION_MS ≤ e then false else s.isMimicking := rfl

lemma mimicTick_mimickedProgress (e : ℚ) (s : MimicState) :
    (mimicTick e s).mimickedProgress = computeMimickedProgress e := rfl

lemma displayProgress_def (t? : Option Task) (s : MimicState) :
    displayProgress t? s = if s.isMimicking then s.mimickedProgress else (t?.map Task.progress).getD 0 := rfl

lemma MIMIC_DURATION_MS_pos : (0 : ℚ) < MIMIC_DURATION_MS := by norm_num [MIMIC_DURATION_MS]

lemma computeMimickedProgress_mono {e1 e2 : ℚ} (h : e1 ≤ e2) :
    computeMimickedProgress e1 ≤ computeMimickedProgress e2 := by
  unfold computeMimickedProgress
  refine min_le_min le_rfl ?_
  have hdiv : e1 / MIMIC_DURATION_MS ≤ e2 / MIMIC_DURATION_MS :=
    (div_le_div_iff_of_pos_right MIMIC_DURATION_MS_pos).mpr h
  nlinarith [hdiv]

lemma computeMimickedProgress_lt_100 {e : ℚ} (h : e < MIMIC_DURATION_MS) :
    computeMimickedProgress e < 100 := by
  unfold computeMimickedProgress
  have hq : e / MIMIC_DURATION_MS < 1 := (div_lt_one MIMIC_DURATION_MS_pos).mpr h
  have : e / MIMIC_DURATION_MS * 100 < 100 := by nlinarith
  exact lt_of_le_of_lt (min_le_right _ _) this

/-- C1: the claim that displayed progress is clamped so it never decreases is
false: after the mimicry tick at the duration cap, `isMimicking` is cleared and
the display falls back to the server-reported progress (10 here), dropping from
the previously displayed 50 with no clamping. -/
theorem C1_counterexample :
    displayProgress (some runningTaskLow) (mimicTick 60000 mimicStart) = 50 ∧
    displayProgress (some runningTaskLow) (mimicTick 120000 (mimicTick 60000 mimicStart)) = 10 ∧
    ¬ (50 : ℚ) ≤ 10 := by
  refine ⟨?_, ?_, by norm_num⟩
  · rw [displayProgress_def]
    norm_num [mimicTick, mimicStart, computeMimickedProgress, MIMIC_DURATION_MS]
  · rw [displayProgress_def]
    norm_num [mimicTick, mimicStart, runningTaskLow, MIMIC_DURATION_MS]

/-- C1 (amended): displayed progress is non-decreasing across ticks while the
simulation stays active (elapsed below the duration constant); but no clamp
exists — a tick at or past the duration cap stops the simulation and the
displayed value becomes the server-reported progress, whatever it is. -/
theorem C1_theorem (t : Task) (s : MimicState) (e1 e2 e3 : ℚ)
    (hm : s.isMimicking = true) (h12 : e1 ≤ e2) (h2 : e2 < MIMIC_DURATION_MS)
    (h3 : MIMIC_DURATION_MS ≤ e3) :
    displayProgress (some t) (mimicTick e1 s) ≤
      displayProgress (some t) (mimicTick e2 (mimicTick e1 s)) ∧
    displayProgress (some t) (mimicTick e3 (mimicTick e2 (mimicTick e1 s))) = t.progress := by
  have h1 : e1 < MIMIC_DURATION_MS := lt_of_le_of_lt h12 h2
  have k1 : (mimicTick e1 s).isMimicking = true := by
    rw [mimicTick_isMimicking, if_neg (not_le.mpr h1), hm]
  have k2 : (mimicTick e2 (mimicTick e1 s)).isMimicking = true := by
    rw [mimicTick_isMimicking, if_neg (not_le.mpr h2), k1]
  have k3 : (mimicTick e3 (mimicTick e2 (mimicTick e1 s))).isMimicking = false := by
    rw [mimicTick_isMimicking, if_pos h3]
  constructor
  · rw [displayProgress_def, displayProgress_def, if_pos k1, if_pos k2,
      mimicTick_mimickedProgress, mimicTick_mimickedProgress]
    exact computeMimickedProgress_mono h12
  · rw [displayProgress_def, if_neg (by simp [k3])]
    rfl

/-- Witness for C1_theorem at a concrete trace: ticks at 30s and 60s while
mimicking, then the cap tick at 120s falling back to the server progress. -/
theorem C1_witness :
    displayProgress (some runningTaskLow) (mimicTick 30000 mimicStart) ≤
      displayProgress (some runningTaskLow) (mimicTick 60000 (mimicTick 30000 mimicStart)) ∧
    displayProgress (some runningTaskLow)
        (mimicTick 120000 (mimicTick 60000 (mimicTick 30000 mimicStart))) =
      runningTaskLow.progress :=
  C1_theorem runningTaskLow mimicStart 30000 60000 120000 rfl (by norm_num)
    (by norm_num [MIMIC_DURATION_MS]) (by norm_num [MIMIC_DURATION_MS])

/-- C2: the claim that displayed synthetic progress is capped at a ceiling of at
most 99 is false: at elapsed 119400 ms the simulation is still active and
displays 99.5, strictly above 99. -/
theorem C2_counterexample :
    (mimicTick 119400 mimicStart).isMimicking = true ∧
    displayProgress (some runningTaskLow) (mimicTick 119400 mimicStart) = 199 / 2 ∧
    ¬ (199 / 2 : ℚ) ≤ 99 := by
  refine ⟨?_, ?_, by norm_num⟩
  · rw [mimicTick_isMimicking]
    norm_num [MIMIC_DURATION_MS, mimicStart]
  · rw [displayProgress_def]
    norm_num [mimicTick, mimicStart, computeMimickedProgress, MIMIC_DURATION_MS]

/-- C2 (amended): while the authoritative status is non-terminal the displayed
synthetic progress stays strictly below 100 for every elapsed time below the
duration constant; there is no 99-ceiling, and at or past the duration constant
the simulation stops and the display falls back to the server-reported progress
instead of holding a capped synthetic value. -/
theorem C2_theorem (t : Task) (s : MimicState) (e ef : ℚ)
    (hm : s.isMimicking = true) (he : e < MIMIC_DURATION_MS) (hf : MIMIC_DURATION_MS ≤ ef) :
    displayProgress (some t) (mimicTick e s) < 100 ∧
    (mimicTick ef s).isMimicking = false ∧
    displayProgress (some t) (mimicTick ef s) = t.progress := by
  have k1 : (mimicTick e s).isMimicking = true := by
    rw [mimicTick_isMimicking, if_neg (not_le.mpr he), hm]
  have k3 : (mimicTick ef s).isMimicking = false := by
    rw [mimicTick_isMimicking, if_pos hf]
  refine ⟨?_, k3, ?_⟩
  · rw [displayProgress_def, if_pos k1, mimicTick_mimickedProgress]
    exact computeMimickedProgress_lt_100 he
  · rw [displayProgress_def, if_neg (by simp [k3])]
    rfl

/-- Witness for C2_theorem: elapsed 60s (active) and 130s (past the cap,
scenario B's elapsed time) on the concrete running task. -/
theorem C2_witness :
    displayProgress (some runningTaskLow) (mimicTick 60000 mimicStart) < 100 ∧
    (mimicTick 130000 mimicStart).isMimicking = false ∧
    displayProgress (some runningTaskLow) (mimicTick 130000 mimicStart) =
      runningTaskLow.progress :=
  C2_theorem runningTaskLow mimicStart 60000 130000 rfl
    (by norm_num [MIMIC_DURATION_MS]) (by norm_num [MIMIC_DURATION_MS])

lemma mimicTick_60000_mimicStart : mimicTick 60000 mimicStart = ⟨true, 50, 2⟩ := by
  have h1 : computeMimickedProgress 60000 = 50 := by
    norm_num [computeMimickedProgress, MIMIC_DURATION_MS]
  have h2 : ¬ (MIMIC_DURATION_MS ≤ (60000 : ℚ)) := by norm_num [MIMIC_DURATION_MS]
  simp only [mimicTick, h1, if_neg h2, mimicStart]
  decide

/-- C3: at elapsed 60000 ms the synthetic progress is 50 and the step index is 2
as claimed, but the derived step list marks step 2 completed and step 3
processing — not step 2 processing as the claim states. -/
theorem C3_counterexample :
    (displayedTaskSteps (some runningTaskLow) (mimicTick 60000 mimicStart)).map Prod.snd =
      [StepStatus.completed, StepStatus.completed, StepStatus.completed,
       StepStatus.processing, StepStatus.pending, StepStatus.pending] ∧
    ¬ (displayedTaskSteps (some runningTaskLow) (mimicTick 60000 mimicStart)).map Prod.snd =
      [StepStatus.completed, StepStatus.completed, StepStatus.processing,
       StepStatus.pending, StepStatus.pending, StepStatus.pending] := by
  rw [mimicTick_60000_mimicStart]
  constructor
  · decide
  · decide

/-- C3 (amended): at elapsed 60000 ms with a non-terminal authoritative status the
simulator computes synthetic progress 50 and current step index 2; the derived
step list renders steps 0-2 completed, step 3 processing (the step after the
current index), and steps 4-5 pending. -/
theorem C3_theorem :
    computeMimickedProgress 60000 = 50 ∧
    findMimickedStepIndex 50 = 2 ∧
    (displayedTaskSteps (some runningTaskLow) (mimicTick 60000 mimicStart)).map Prod.snd =
      [StepStatus.completed, StepStatus.completed, StepStatus.completed,
       StepStatus.processing, StepStatus.pending, StepStatus.pending] := by
  refine ⟨?_, by decide, ?_⟩
  · norm_num [computeMimickedProgress, MIMIC_DURATION_MS]
  · rw [mimicTick_60000_mimicStart]
    decide

/-- C4: the claim that displayed progress equals 100 whenever the status is
completed is false: after the effect reconciles a completed task that the server
reported at progress 40, mimicry is off and the display shows the server value
40, not 100. -/
theorem C4_counterexample :
    displayProgress (some completedTask40) (mimicEffect (some completedTask40) mimicStart) = 40 ∧
    ¬ (40 : ℚ) = 100 := by
  constructor
  · decide
  · norm_num

/-- C4 (amended): whenever the authoritative status is completed, every step of
the derived step list is marked completed regardless of the simulation state, and
the displayed progress equals the server-reported progress (the simulated value
is forced to 100 but is no longer displayed once mimicry stops). -/
theorem C4_theorem (t : Task) (s : MimicState) (hc : t.status = TaskStatus.completed) :
    displayProgress (some t) (mimicEffect (some t) s) = t.progress ∧
    (displayedTaskSteps (some t) (mimicEffect (some t) s)).map Prod.snd =
      List.replicate STEPS_CONFIG.length StepStatus.completed := by
  have hmi : (mimicEffect (some t) s).isMimicking = false := by
    cases hb : s.isMimicking <;> simp [mimicEffect, hc, hb]
  constructor
  · rw [displayProgress_def, if_neg (by simp [hmi])]
    rfl
  · simp [displayedTaskSteps, stepStatusFor, hc, STEPS_CONFIG, List.enum, List.replicate]

/-- Witness for C4_theorem: the concrete completed task with server progress 40. -/
theorem C4_witness :
    displayProgress (some completedTask40) (mimicEffect (some completedTask40) mimicStart) =
      completedTask40.progress ∧
    (displayedTaskSteps (some completedTask40) (mimicEffect (some completedTask40) mimicStart)).map
        Prod.snd =
      List.replicate STEPS_CONFIG.length StepStatus.completed :=
  C4_theorem completedTask40 mimicStart rfl

/-- C5: whenever the authoritative status is failed, the derived step list (in
both versions of the page) marks exactly step 0 completed and every other step
failed, for every simulation state and every server-reported progress. -/
theorem C5_theorem (t : Task) (s : MimicState) (p? : Option ℚ)
    (hf : t.status = TaskStatus.failed) :
    (displayedTaskSteps (some t) s).map Prod.snd =
      [StepStatus.completed, StepStatus.failed, StepStatus.failed, StepStatus.failed,
       StepStatus.failed, StepStatus.failed] ∧
    (getTaskLogs (some t.status) p?).map (fun l => l.2.2) =
      [StepStatus.completed, StepStatus.failed, StepStatus.failed, StepStatus.failed,
       StepStatus.failed, StepStatus.failed] := by
  constructor
  · simp [displayedTaskSteps, stepStatusFor, hf, STEPS_CONFIG, List.enum]
  · simp [getTaskLogs, hf, baseLogs]

/-- Witness for C5_theorem: a concrete failed task at simulated progress 50. -/
theorem C5_witness :
    (displayedTaskSteps (some ⟨"job-4", TaskStatus.failed, 30, "2025-01-04T00:00:00Z",
        some "Upstream timeout"⟩) (mimicTick 60000 mimicStart)).map Prod.snd =
      [StepStatus.completed, StepStatus.failed, StepStatus.failed, StepStatus.failed,
       StepStatus.failed, StepStatus.failed] ∧
    (getTaskLogs (some (Task.status ⟨"job-4", TaskStatus.failed, 30, "2025-01-04T00:00:00Z",
        some "Upstream timeout"⟩)) (some 50)).map (fun l => l.2.2) =
      [StepStatus.completed, StepStatus.failed, StepStatus.failed, StepStatus.failed,
       StepStatus.failed, StepStatus.failed] :=
  C5_theorem ⟨"job-4", TaskStatus.failed, 30, "2025-01-04T00:00:00Z", some "Upstream timeout"⟩
    (mimicTick 60000 mimicStart) (some 50) rfl

/-- C6: the claim that no mechanism of the component triggers another fetch after
a terminal fetch is false: with a completed task the recurring poll indeed
returns no next interval, yet the component keeps `refetchOnWindowFocus: true`,
so a window-focus event still triggers a status fetch for the job id. -/
theorem C6_counterexample :
    refetchIntervalV1 (some completedTask40) = none ∧
    refetchFires progressQueryOptions (some completedTask40) FetchTrigger.windowFocus = true := by
  constructor
  · decide
  · decide

/-- C6 (amended): after a fetch returns a terminal status the recurring poll
stops — the `refetchInterval` callback returns no next interval, so no
interval-driven fetch fires — but the component leaves `refetchOnWindowFocus`
enabled, so a window-focus event can still trigger a further status fetch for
that job id. -/
theorem C6_theorem (t : Task) (ht : t.status = TaskStatus.completed ∨ t.status = TaskStatus.failed) :
    refetchIntervalV1 (some t) = none ∧
    refetchFires progressQueryOptions (some t) FetchTrigger.intervalElapsed = false ∧
    refetchFires progressQueryOptions (some t) FetchTrigger.windowFocus = true := by
  have h : refetchIntervalV1 (some t) = none := by
    simp [refetchIntervalV1, ht]
  refine ⟨h, ?_, rfl⟩
  simp [refetchFires, progressQueryOptions, h]

/-- Witness for C6_theorem: the concrete completed task. -/
theorem C6_witness :
    refetchIntervalV1 (some completedTask40) = none ∧
    refetchFires progressQueryOptions (some completedTask40) FetchTrigger.intervalElapsed = false ∧
    refetchFires progressQueryOptions (some completedTask40) FetchTrigger.windowFocus = true :=
  C6_theorem completedTask40 (Or.inl rfl)

/-- C9: the claim that no further automatic fetch attempt is made after the
retries are exhausted is false: with the retry budget spent (failure count 2
forbids another retry) and no cached task data, the `refetchInterval` callback
still returns 5000 ms, so the scheduler issues another automatic fetch. -/
theorem C9_counterexample :
    retryV1 2 none = false ∧
    refetchIntervalV1 none = some 5000 ∧
    refetchFires progressQueryOptions none FetchTrigger.intervalElapsed = true := by
  refine ⟨by decide, by decide, by decide⟩

/-- C9 (amended): a failed status fetch is retried automatically at most 2 times
(and never for a 404 response) in both versions of the page; but after the
retries are exhausted automatic fetching does not stop — the refetch-interval
callback returns a 5000 ms delay while no task data is cached, so polling
resumes on the same cadence. -/
theorem C9_theorem (failureCount : ℕ) (errorHttpStatus : Option ℕ) :
    (retryV1 failureCount errorHttpStatus = true ↔
      (errorHttpStatus ≠ some 404 ∧ failureCount < 2)) ∧
    (retryV2 failureCount = true ↔ failureCount < 2) ∧
    refetchIntervalV1 none = some 5000 := by
  refine ⟨?_, by simp [retryV2], by decide⟩
  by_cases h : errorHttpStatus = some 404 <;> simp [retryV1, h]

/-- Forward-only terminal statuses, specialised to what the navigation effect
observes: once the dependency value is `completed` it stays `completed` across
consecutive renders. -/
def completedAbsorbing (deps : List (Option TaskStatus)) : Prop :=
  List.Chain' (fun a b => a = some TaskStatus.completed → b = some TaskStatus.completed) deps

/-- Number of times the completion effect schedules the delayed transition along
a dependency trace, starting from a given last-seen dependency value. -/
def countSchedulesFrom : Option (Option TaskStatus) → List (Option TaskStatus) → ℕ
  | _, [] => 0
  | last?, d :: ds =>
    if last? = some d then countSchedulesFrom last? ds
    else (if d = some TaskStatus.completed then 1 else 0) + countSchedulesFrom (some d) ds

lemma runNavEffect_scheduledCount (s : NavState) (d : Option TaskStatus) :
    (runNavEffect s d).scheduledCount =
      s.scheduledCount + (if d = some TaskStatus.completed then 1 else 0) := by
  unfold runNavEffect
  split <;> simp

lemma runNavEffect_lastDep (s : NavState) (d : Option TaskStatus) :
    (runNavEffect s d).lastDep = some d := by
  unfold runNavEffect
  split <;> rfl

lemma runNavEffect_firedCount (s : NavState) (d : Option TaskStatus) :
    (runNavEffect s d).firedCount = s.firedCount := by
  unfold runNavEffect
  split <;> rfl

lemma foldl_navRender_scheduledCount :
    ∀ (ds : List (Option TaskStatus)) (s : NavState),
      (ds.foldl navRender s).scheduledCount = s.scheduledCount + countSchedulesFrom s.lastDep ds
  | [], s => by simp [countSchedulesFrom]
  | d :: ds, s => by
    rw [List.foldl_cons]
    by_cases h : s.lastDep = some d
    · rw [show navRender s d = s from if_pos h,
        foldl_navRender_scheduledCount ds s]
      simp [countSchedulesFrom, h]
    · rw [show navRender s d = runNavEffect s d from if_neg h,
        foldl_navRender_scheduledCount ds (runNavEffect s d),
        runNavEffect_scheduledCount, runNavEffect_lastDep]
      simp only [countSchedulesFrom, if_neg h]
      omega

lemma foldl_navRender_firedCount :
    ∀ (ds : List (Option TaskStatus)) (s : NavState),
      (ds.foldl navRender s).firedCount = s.firedCount
  | [], _ => rfl
  | d :: ds, s => by
    rw [List.foldl_cons, foldl_navRender_firedCount ds (navRender s d)]
    unfold navRender
    split
    · rfl
    · exact runNavEffect_firedCount s d

lemma countSchedulesFrom_completed :
    ∀ ds : List (Option TaskStatus),
      completedAbsorbing (some TaskStatus.completed :: ds) →
      countSchedulesFrom (some (some TaskStatus.completed)) ds = 0
  | [], _ => rfl
  | d :: ds, h => by
    have hcd := List.chain'_cons.mp h
    have hd : d = some TaskStatus.completed := hcd.1 rfl
    subst hd
    simp only [countSchedulesFrom, if_pos rfl]
    exact countSchedulesFrom_completed ds hcd.2

lemma countSchedulesFrom_of_ne_completed :
    ∀ (ds : List (Option TaskStatus)) (prev : Option TaskStatus),
      completedAbsorbing (prev :: ds) → prev ≠ some TaskStatus.completed →
      countSchedulesFrom (some prev) ds =
        (if some TaskStatus.completed ∈ ds then 1 else 0)
  | [], _, _, _ => by simp [countSchedulesFrom]
  | d :: ds, prev, h, hp => by
    have hch := List.chain'_cons.mp h
    have hmem : ((some TaskStatus.completed ∈ d :: ds) ↔
        (d = some TaskStatus.completed ∨ some TaskStatus.completed ∈ ds)) := by
      constructor
      · intro hx
        rcases List.mem_cons.mp hx with hx | hx
        · exact Or.inl hx.symm
        · exact Or.inr hx
      · intro hx
        rcases hx with hx | hx
        · exact List.mem_cons.mpr (Or.inl hx.symm)
        · exact List.mem_cons.mpr (Or.inr hx)
    by_cases hpd : (some prev : Option (Option TaskStatus)) = some d
    · have hpd' : prev = d := Option.some.inj hpd
      subst hpd'
      rw [show countSchedulesFrom (some prev) (prev :: ds) =
          countSchedulesFrom (some prev) ds from by simp [countSchedulesFrom]]
      rw [countSchedulesFrom_of_ne_completed ds prev hch.2 hp]
      have : ((some TaskStatus.completed ∈ prev :: ds) ↔ (some TaskStatus.completed ∈ ds)) := by
        rw [hmem]
        simp [fun hx : prev = some TaskStatus.completed => hp hx]
      simp only [this]
    · simp only [countSchedulesFrom, if_neg hpd]
      by_cases hdc : d = some TaskStatus.completed
      · subst hdc
        rw [countSchedulesFrom_completed ds hch.2]
        have : some TaskStatus.completed ∈ some TaskStatus.completed :: ds :=
          List.mem_cons.mpr (Or.inl rfl)
        simp [this]
      · rw [countSchedulesFrom_of_ne_completed ds d hch.2 hdc]
        have : ((some TaskStatus.completed ∈ d :: ds) ↔ (some TaskStatus.completed ∈ ds)) := by
          rw [hmem]
          simp [hdc]
        simp only [this, if_neg hdc, Nat.zero_add]

lemma navRun_scheduledCount (deps : List (Option TaskStatus)) (h : completedAbsorbing deps) :
    (navRun deps).scheduledCount = (if some TaskStatus.completed ∈ deps then 1 else 0) := by
  rw [navRun, foldl_navRender_scheduledCount]
  show 0 + countSchedulesFrom none deps = _
  rw [Nat.zero_add]
  cases deps with
  | nil => simp [countSchedulesFrom]
  | cons d ds =>
    simp only [countSchedulesFrom, if_neg (by simp : (none : Option (Option TaskStatus)) ≠ some d)]
    by_cases hdc : d = some TaskStatus.completed
    · subst hdc
      rw [countSchedulesFrom_completed ds h]
      have : some TaskStatus.completed ∈ some TaskStatus.completed :: ds :=
        List.mem_cons.mpr (Or.inl rfl)
      simp [this]
    · rw [countSchedulesFrom_of_ne_completed ds d h hdc]
      have : ((some TaskStatus.completed ∈ d :: ds) ↔ (some TaskStatus.completed ∈ ds)) := by
        constructor
        · intro hx
          rcases List.mem_cons.mp hx with hx | hx
          · exact absurd hx.symm hdc
          · exact hx
        · exact fun hx => List.mem_cons.mpr (Or.inr hx)
      simp only [this, if_neg hdc, Nat.zero_add]

/-- C7: along any render trace whose `task?.status` dependency values never leave
`completed` once it is reached, the completion effect schedules the delayed
navigation exactly once when `completed` is observed (repeat observations leave
the dependency unchanged, so the effect does not re-run), the scheduled
transition never fires once the component is unmounted before the timer
elapses, and the configured delay is the 1500 ms reference delay. -/
theorem C7_theorem (deps : List (Option TaskStatus)) (h : completedAbsorbing deps)
    (hmem : some TaskStatus.completed ∈ deps) :
    (navRun deps).scheduledCount = 1 ∧
    (navTimerFire (navUnmount (navRun deps))).firedCount = 0 ∧
    NAV_DELAY_MS = 1500 := by
  refine ⟨?_, ?_, rfl⟩
  · rw [navRun_scheduledCount deps h, if_pos hmem]
  · have hfired : (navRun deps).firedCount = 0 := foldl_navRender_firedCount deps navInit
    have hpending : (navUnmount (navRun deps)).timerPending = false := rfl
    unfold navTimerFire
    rw [if_neg (by simp [hpending])]
    exact hfired

/-- Witness for C7_theorem: a trace that observes `completed` twice in a row —
the transition is scheduled exactly once and an unmounted timer never fires. -/
theorem C7_witness :
    (navRun [none, some TaskStatus.running, some TaskStatus.completed,
      some TaskStatus.completed]).scheduledCount = 1 ∧
    (navTimerFire (navUnmount (navRun [none, some TaskStatus.running,
      some TaskStatus.completed, some TaskStatus.completed]))).firedCount = 0 ∧
    NAV_DELAY_MS = 1500 :=
  C7_theorem [none, some TaskStatus.running, some TaskStatus.completed,
      some TaskStatus.completed]
    (by constructor
        · intro hx
          exact absurd hx (by decide)
        · constructor
          · intro hx
            exact absurd hx (by decide)
          · constructor
            · intro hx
              rfl
            · constructor)
    (by decide)

lemma userInfoSchemaParse_toStoredJson (r : UserInfo) (h : userInfoSchemaCheck r = true) :
    userInfoSchemaParse (toStoredJson r) = some r := by
  cases r
  simp only [userInfoSchemaParse, toStoredJson]
  rw [if_pos h]

/-- C8: storing a `ReadinessRecord` that passes the schema check and loading it
back yields the record as present — the gate is valid, the dialog stays closed
and the blob is kept — while loading any blob that fails parsing or the schema
check yields an absent record, an open dialog, and deletes the stored blob. -/
theorem C8_theorem (r : UserInfo) (b : Blob)
    (hr : userInfoSchemaCheck r = true) (hb : parseBlob b = none) :
    userInfoSchemaParse (toStoredJson r) = some r ∧
    checkStorageEffect (onUserInfoSubmit r).storage =
      { hasUserInfo := true, userInfoDialogOpen := false,
        storage := some (Blob.json (toStoredJson r)) } ∧
    checkStorageEffect (some b) =
      { hasUserInfo := false, userInfoDialogOpen := true, storage := none } := by
  have hparse := userInfoSchemaParse_toStoredJson r hr
  refine ⟨hparse, ?_, ?_⟩
  · simp [onUserInfoSubmit, checkStorageEffect, hparse]
  · cases b with
    | malformed => rfl
    | json j =>
      simp only [parseBlob] at hb
      simp [checkStorageEffect, hb]

/-- Witness for C8_theorem: a concrete valid record round-trips, and the same
stored object with its name field corrupted to a single character is rejected
and cleared. -/
theorem C8_witness :
    userInfoSchemaParse (toStoredJson ⟨"Jane Doe", "jane@example.com", "Sales Manager"⟩) =
      some ⟨"Jane Doe", "jane@example.com", "Sales Manager"⟩ ∧
    checkStorageEffect
        (onUserInfoSubmit ⟨"Jane Doe", "jane@example.com", "Sales Manager"⟩).storage =
      { hasUserInfo := true, userInfoDialogOpen := false,
        storage := some (Blob.json
          (toStoredJson ⟨"Jane Doe", "jane@example.com", "Sales Manager"⟩)) } ∧
    checkStorageEffect
        (some (Blob.json ⟨some ("J"), some ("jane@example.com"), some ("Sales Manager")⟩)) =
      { hasUserInfo := false, userInfoDialogOpen := true, storage := none } :=
  C8_theorem ⟨"Jane Doe", "jane@example.com", "Sales Manager"⟩
    (Blob.json ⟨some ("J"), some ("jane@example.com"), some ("Sales Manager")⟩)
    (by decide) (by decide)

/-- C10: `listTasks` returns a permutation of the fetched tasks — no task is
added, dropped or modified — arranged so that each task's `created_at` timestamp
is at least that of every later task (newest first, non-increasing). -/
theorem C10_theorem (getTime : String → ℤ) (tasks : List Task) :
    (listTasks getTime tasks).Perm tasks ∧
    (listTasks getTime tasks).Pairwise
      (fun a b => getTime b.created_at ≤ getTime a.created_at) := by
  constructor
  · exact List.mergeSort_perm tasks (listTasksComparatorLe getTime)
  · have htrans : ∀ a b c : Task, listTasksComparatorLe getTime a b →
        listTasksComparatorLe getTime b c → listTasksComparatorLe getTime a c := by
      intro a b c hab hbc
      simp only [listTasksComparatorLe, decide_eq_true_eq] at *
      omega
    have htotal : ∀ a b : Task,
        listTasksComparatorLe getTime a b || listTasksComparatorLe getTime b a := by
      intro a b
      simp only [listTasksComparatorLe, Bool.or_eq_true, decide_eq_true_eq]
      omega
    have hs := @List.sorted_mergeSort Task (listTasksComparatorLe getTime) htrans htotal tasks
    refine hs.imp ?_
    intro a b hab
    simp only [listTasksComparatorLe, decide_eq_true_eq] at hab
    omega

end AccountResearch
